import Mathlib

/-!
Shallow embedding of `unha2/client.py`, the realtime Rocket.Chat client
(classes `ClientData`, `ClientAPI`, `Client`, `EventClient`,
`OverrideClient`), together with theorems settling the specification
claims about it. Each definition's doc comment names the Python source
it embeds.
-/

namespace Unha2

/-- Model of the Python values that flow through the client: the inbound
queue holds `None` (the stop sentinel) or decoded websocket messages
(dicts); the `stop` property setter receives an arbitrary value tested
for truthiness. Dict entries are kept abstract as string pairs, which is
enough for the claims: only emptiness (truthiness) and identity of a
message matter to `handler_loop`. -/
inductive PyVal where
  | pynone
  | pybool (b : Bool)
  | pystr (s : String)
  | pydict (entries : List (String × String))
  deriving DecidableEq, Repr

/-- Python truthiness for the modelled values: `None`, `False`, `""` and
`{}` are falsy, everything else truthy. This is the `if not msg:` /
`if value:` test of `Client.handler_loop` and the `stop` setter. -/
def truthy : PyVal → Bool
  | .pynone => false
  | .pybool b => b
  | .pystr s => s ≠ ""
  | .pydict entries => entries ≠ []

/-- `RawMessageType` from `unha2.model.base`. The module is not under
`src/`; the variants `NONE, PING, CONNECTED, RESULT, READY, ADDED,
CHANGED, UPDATED, REMOVED, FAILED` are exactly those referenced by
`unha2/client.py`. Modelled from the spec: the classifier's kind set in
spec section 4.1 additionally lists `Pong` and `Unknown` (any message not
matching a known shape), so constructors `PONG` and `UNKNOWN` stand for
the kinds a message can classify to beyond those `client.py` names. -/
inductive RawMessageType where
  | NONE
  | PING
  | PONG
  | CONNECTED
  | RESULT
  | READY
  | ADDED
  | CHANGED
  | UPDATED
  | REMOVED
  | FAILED
  | UNKNOWN
  deriving DecidableEq, Repr

/-- A listener registered with `EventClient.add_cb`. Python callbacks are
compared by object identity/equality in `list.remove`; `id` stands for
that identity. `isAsync` records the `asyncio.iscoroutinefunction(cb)`
test made by `EventClient.event`. -/
structure Callback where
  id : Nat
  isAsync : Bool
  deriving DecidableEq, Repr

/-- The callback invocations actually executed, in scheduling order, when
`EventClient.event(name, data)` runs with `cbs = self.callbacks[name]`.

Embeds the loop

  for cb in self.callbacks[name]:
      if asyncio.iscoroutinefunction(cb):
          asyncio.ensure_future(cb(data))
      else:
          asyncio.get_event_loop().call_soon(lambda: cb(data))

faithfully to Python/asyncio semantics: every dispatch is deferred
(`ensure_future` / `call_soon`), and the deferred work runs only after
the `for` loop has completed.
* async branch: `cb(data)` is evaluated inside the iteration, so the
  coroutine is created with the current `cb`; that callback's body runs.
* sync branch: `lambda: cb(data)` captures the *variable* `cb`, not its
  current value; when the lambda runs (after the loop) `cb` holds the
  last element of the list, so the lambda calls that last element. If
  that last element is a coroutine function, calling it merely creates a
  never-awaited coroutine and no callback body runs.
The result pairs each executed callback's `id` with the payload it was
called with. -/
def eventInvocations (cbs : List Callback) (data : Option PyVal) :
    List (Nat × Option PyVal) :=
  cbs.filterMap (fun cb =>
    if cb.isAsync then
      some (cb.id, data)
    else
      match cbs.getLast? with
      | some last => if last.isAsync then none else some (last.id, data)
      | none => none)

/-- The mutable state of an `EventClient` relevant to the dispatcher
claims: the `self.callbacks` registry (a `defaultdict(list)`, modelled
extensionally as a total function defaulting to `[]`), plus the
event-loop queue of already-scheduled, not-yet-executed callback
invocations (what `ensure_future`/`call_soon` have submitted). The
transport, holder and credential fields of `Client` are omitted; they are
modelled separately where a claim needs them. -/
structure EventClientState where
  callbacks : String → List Callback
  pending : List (Nat × Option PyVal)

/-- `EventClient.event(name, data)`: schedules one dispatch per entry of
`self.callbacks[name]`; the executed invocations are `eventInvocations`
of the registry snapshot taken when the loop runs. The registry itself is
not modified. -/
def event (st : EventClientState) (name : String) (data : Option PyVal) :
    EventClientState :=
  { st with pending := st.pending ++ eventInvocations (st.callbacks name) data }

/-- `EventClient.add_cb(name, cb)`: `self.callbacks[name].append(cb)`. -/
def add_cb (st : EventClientState) (name : String) (cb : Callback) :
    EventClientState :=
  { st with
    callbacks := fun n =>
      if n = name then st.callbacks name ++ [cb] else st.callbacks n }

/-- Python's `list.remove(x)`: removes the first element equal to `x`,
or raises `ValueError` (here: `none`) when no element matches. -/
def remove_first : List Callback → Callback → Option (List Callback)
  | [], _ => none
  | a :: l, x => if a = x then some l else (remove_first l x).map (a :: ·)

/-- `EventClient.del_cb(name, cb)`:

  try:
      self.callbacks[name].remove(cb)
      return True
  except ValueError:
      return False

Returns the new state and the boolean result. (On a name with no entry,
the `defaultdict` materialises an empty list, which is extensionally
invisible in the function model.) -/
def del_cb (st : EventClientState) (name : String) (cb : Callback) :
    EventClientState × Bool :=
  match remove_first (st.callbacks name) cb with
  | some l =>
      ({ st with
         callbacks := fun n => if n = name then l else st.callbacks n }, true)
  | none => (st, false)

/-- `ClientData` (`unha2/client.py`): `__slots__ = ['server', 'username',
'password', 'token', 'session', 'user_id', 'token_expires']`. Datetimes
are modelled as abstract `Nat` timestamps. -/
structure ClientData where
  server : String
  username : String
  password : String
  token : String
  session : String
  user_id : String
  token_expires : Option Nat
  deriving DecidableEq, Repr

/-- `ClientData.__init__(server, username, password)`: credentials from
the arguments, `token = session = user_id = ''`, `token_expires = None`. -/
def ClientData.init (server username password : String) : ClientData :=
  { server := server, username := username, password := password,
    token := "", session := "", user_id := "", token_expires := none }

/-- The dictionary returned by `methods.login_sha256` as consumed by
`ClientAPI.login`: exactly the keys `'token'`, `'expires'`, `'user_id'`
are read from it. -/
structure LoginResult where
  token : String
  expires : Option Nat
  user_id : String
  deriving DecidableEq, Repr

/-- The mutation `ClientAPI.login` performs on `self._data` once the
login call's Result message has resolved the awaited future:

  self._data.token = res['token']
  self._data.token_expires = res['expires']
  self._data.user_id = res['user_id']

No other field of `ClientData` is assigned anywhere in `client.py`
(`handler_loop` assigns `self.session` on the `Client` object itself, not
`ClientData.session`). -/
def login_update (d : ClientData) (res : LoginResult) : ClientData :=
  { d with
    token := res.token
    token_expires := res.expires
    user_id := res.user_id }

/-- `error_result['error']['details']` as read by
`OverrideClient.on_too_many_requests`: the server's reset interval in
milliseconds (the Python `int(...)` conversion applied to the dict
value). -/
structure ErrorDetails where
  timeToReset : Nat
  deriving DecidableEq, Repr

/-- `error_result['error']` as read by `on_too_many_requests`. -/
structure ErrorBody where
  details : ErrorDetails
  deriving DecidableEq, Repr

/-- The `error_result` payload handed to `Client.on_error`. -/
structure ErrorResult where
  error : ErrorBody
  deriving DecidableEq, Repr

/-- The `recover_message` handed to `Client.on_error`: the original
request, from which `on_too_many_requests` reads `['rid']` and
`['msg']`. -/
structure RecoverMessage where
  rid : String
  msg : String
  deriving DecidableEq, Repr

/-- Modelled from the spec: `ErrorType` lives in `unha2.model.base`,
which is not under `src/`; the spec (sections 4.4 and 7) names the kind
`TooManyRequests`. `client.py` uses `ErrorType.TOO_MANY_REQUESTS.value`
only as an opaque comparison key against the incoming `errortype`, so
the concrete string is irrelevant to every theorem below. -/
def TOO_MANY_REQUESTS_value : String := "too-many-requests"

/-- The observable side effects the error path can produce. `sleep_ms t`
is `await asyncio.sleep(int(timeToReset) * 0.001)` — a suspension of `t`
milliseconds expressed as `t * 0.001` seconds; `send_msg rid text` is
`self.api.send_msg(room_id, text)`, which transmits a new
`sendMessage` method call for the same room and text. -/
inductive ClientAction where
  | sleep_ms (t : Nat)
  | send_msg (rid : String) (text : String)
  deriving DecidableEq, Repr

/-- How many `send_msg` transmissions a trace contains. -/
def countSendMsg (l : List ClientAction) : Nat :=
  l.countP (fun a => match a with | .send_msg _ _ => true | _ => false)

/-- `OverrideClient.on_too_many_requests(error_result, recover_message)`:

  timeout = int(error_result['error']['details']['timeToReset']) * 0.001
  await asyncio.sleep(timeout)
  room_id = recover_message['rid']
  text = recover_message['msg']
  self.api.send_msg(room_id, text)

as the trace of effects it performs, in order. -/
def on_too_many_requests (error_result : ErrorResult)
    (recover_message : RecoverMessage) : List ClientAction :=
  [ClientAction.sleep_ms error_result.error.details.timeToReset,
   ClientAction.send_msg recover_message.rid recover_message.msg]

/-- `OverrideClient.on_error(errortype, error_result, recover_message)`:
delegates to `on_too_many_requests` exactly when
`errortype == ErrorType.TOO_MANY_REQUESTS.value`, and otherwise does
nothing. -/
def on_error (errortype : String) (error_result : ErrorResult)
    (recover_message : RecoverMessage) : List ClientAction :=
  if errortype = TOO_MANY_REQUESTS_value then
    on_too_many_requests error_result recover_message
  else
    []

/-- The terminal outcome a waiter observes for its pending call. -/
inductive CallOutcome where
  | success (value : String)
  | failure (errortype : String) (error_result : ErrorResult)
      (recover_message : RecoverMessage)
  deriving DecidableEq, Repr

/-- The `ServerException` raised by `AsyncHolder.recv_result` and caught
by `Client.on_result`, carrying the fields `client.py` reads from it:
`e.error_message`, `e.error_result`, `e.recover_message`. -/
structure ServerExn where
  error_message : String
  error_result : ErrorResult
  recover_message : RecoverMessage
  deriving DecidableEq, Repr

/-- Modelled from the spec: `AsyncHolder` (`unha2.holder`) is not under
`src/`. Per spec sections 3 and 4.2 it owns the table of pending call
ids, each with a single-assignment result slot observed by exactly one
waiter. `pending` is the set of registered, unresolved ids; `delivered`
records each outcome as observed by its waiter. -/
structure AsyncHolder where
  pending : List Nat
  delivered : List (Nat × CallOutcome)
  deriving DecidableEq, Repr

/-- A `Result` message as consumed by `AsyncHolder.recv_result`: its
correlation id, an optional error payload (presence of which routes to
`resolveFailure`), and the success value otherwise. -/
structure ResultMsg where
  id : Nat
  error : Option (String × ErrorResult × RecoverMessage)
  result : String
  deriving DecidableEq, Repr

/-- Modelled from the spec: `AsyncHolder.recv_result`. Per spec section
4.2, a terminal message for a pending id fills that waiter's slot and
removes the entry (`resolveSuccess` for a plain result, `resolveFailure`
for an error payload — the `ServerError` is "always surfaced to the
original caller via resolveFailure"); an unknown id is an
`UnknownIdError`, logged and dropped. On a failure the holder raises
`ServerException` to its caller, which `client.py` catches in
`Client.on_result`. -/
def recv_result (h : AsyncHolder) (msg : ResultMsg) :
    AsyncHolder × Option ServerExn :=
  if msg.id ∈ h.pending then
    match msg.error with
    | some (errortype, er, rm) =>
        ({ pending := h.pending.erase msg.id,
           delivered := h.delivered ++ [(msg.id, .failure errortype er rm)] },
         some ⟨errortype, er, rm⟩)
    | none =>
        ({ pending := h.pending.erase msg.id,
           delivered := h.delivered ++ [(msg.id, .success msg.result)] },
         none)
  else
    (h, none)

/-- `Client.on_result(msg)` as specialised by `OverrideClient` (whose
`on_error` override is the one dispatched virtually):

  try:
      self._holder.recv_result(msg)
  except ServerException as e:
      asyncio.ensure_future(self.on_error(e.error_message, e.error_result, e.recover_message))

returning the holder afterwards and the trace of effects the spawned
error handler performs. -/
def on_result (h : AsyncHolder) (msg : ResultMsg) :
    AsyncHolder × List ClientAction :=
  match recv_result h msg with
  | (h', some e) => (h', on_error e.error_message e.error_result e.recover_message)
  | (h', none) => (h', [])

/-- The fields of `Client` that the stop/loop claims concern:
`self._stop` and the inbound `self._queue` (an `asyncio.Queue`, modelled
as the list of its elements in FIFO order). -/
structure ClientState where
  _stop : Bool
  _queue : List PyVal
  deriving DecidableEq, Repr

/-- The `Client.stop` property setter:

  @stop.setter
  def stop(self, value):
      if value:
          self._stop = True
          self._queue.put_nowait(None)
-/
def stop_setter (s : ClientState) (value : PyVal) : ClientState :=
  if truthy value then
    { _stop := true, _queue := s._queue ++ [PyVal.pynone] }
  else
    s

/-- The messages `Client.handler_loop` hands to the classifier
(`parse.base.msg_type`) when entered at the `while not self.stop:`
check, given the flag and the queue contents; a loop reaching an empty
queue blocks in `self._queue.get()` and processes nothing further in
this trace. A dequeued falsy message is skipped by `if not msg:
continue` without being classified. -/
def handler_loop_run (stop : Bool) : List PyVal → List PyVal
  | [] => []
  | m :: rest =>
      if stop then []
      else (if truthy m then [m] else []) ++ handler_loop_run stop rest

/-- `Client.handler_loop` resumed from inside `await self._queue.get()`
(the `while not self.stop:` check for this iteration already passed
before the loop blocked): the first queue element is dequeued and
processed unconditionally, and the loop then re-enters at the `while`
check. -/
def handler_loop_resume (stop : Bool) : List PyVal → List PyVal
  | [] => []
  | m :: rest =>
      (if truthy m then [m] else []) ++ handler_loop_run stop rest

/-- `EventClient.parse(msg, msgtype)`: fires the kind-specific event for
the five push-event kinds and falls through (no branch, no effect) for
every other `msgtype`. -/
def event_client_parse (st : EventClientState) (msg : PyVal)
    (msgtype : RawMessageType) : EventClientState :=
  match msgtype with
  | .ADDED => event st "added" (some msg)
  | .CHANGED => event st "changed" (some msg)
  | .UPDATED => event st "updated" (some msg)
  | .REMOVED => event st "removed" (some msg)
  | .FAILED => event st "failed" (some msg)
  | _ => st

/-! Helper lemmas about the embedded operations. -/

/-- Every invocation a fire pass executes names a callback id present in
the registry snapshot the pass iterated over. -/
theorem eventInvocations_id_mem (cbs : List Callback) (data : Option PyVal)
    {y : Nat × Option PyVal} (hy : y ∈ eventInvocations cbs data) :
    y.1 ∈ cbs.map Callback.id := by
  rcases List.mem_filterMap.1 hy with ⟨a, ha, hfa⟩
  by_cases hA : a.isAsync
  · rw [if_pos hA] at hfa
    obtain rfl := Option.some.inj hfa
    exact List.mem_map.2 ⟨a, ha, rfl⟩
  · rw [if_neg hA] at hfa
    rcases hL : cbs.getLast? with _ | last
    · rw [hL] at hfa
      simp at hfa
    · rw [hL] at hfa
      by_cases hlast : last.isAsync
      · simp [hlast] at hfa
      · simp only [hlast, Bool.false_eq_true, if_false] at hfa
        obtain rfl := Option.some.inj hfa
        exact List.mem_map.2
          ⟨last, List.mem_of_mem_getLast? (by simp [hL]), rfl⟩

/-- A callback sitting at the end of the registry list is executed by a
fire pass over that list (whether it is a coroutine function or a plain
one — in the latter case its own deferred lambda resolves to it, being
the last element). -/
theorem eventInvocations_concat_self (cbs : List Callback) (cb : Callback)
    (data : Option PyVal) :
    (cb.id, data) ∈ eventInvocations (cbs ++ [cb]) data := by
  apply List.mem_filterMap.2
  refine ⟨cb, by simp, ?_⟩
  by_cases hA : cb.isAsync
  · simp [eventInvocations, hA]
  · simp [eventInvocations, hA, List.getLast?_concat]

/-- Once the stop flag is observed true at the `while` check, the handler
loop classifies nothing further, whatever the queue holds. -/
theorem handler_loop_run_stop (q : List PyVal) :
    handler_loop_run true q = [] := by
  cases q <;> simp [handler_loop_run]

/-- Every message the handler loop hands to the classifier is truthy:
falsy queue elements never reach `parse.base.msg_type`. -/
theorem handler_loop_run_truthy (stop : Bool) (q : List PyVal) :
    ∀ y ∈ handler_loop_run stop q, truthy y = true := by
  induction q with
  | nil => intro y hy; simp [handler_loop_run] at hy
  | cons m rest ih =>
    intro y hy
    cases stop with
    | true => simp [handler_loop_run] at hy
    | false =>
      by_cases ht : truthy m
      · simp [handler_loop_run, ht] at hy
        rcases hy with rfl | hy
        · exact ht
        · exact ih y hy
      · simp [handler_loop_run, ht] at hy
        exact ih y hy

/-- `list.remove` raises `ValueError` exactly when the element is
absent. -/
theorem remove_first_eq_none {l : List Callback} {x : Callback} :
    remove_first l x = none ↔ x ∉ l := by
  induction l with
  | nil => simp [remove_first]
  | cons a l ih =>
    by_cases h : a = x
    · subst h; simp [remove_first]
    · simp only [remove_first, h, if_false, Option.map_eq_none', ih,
        List.mem_cons]
      constructor
      · intro hx hor
        rcases hor with hor | hor
        · exact h hor.symm
        · exact hx hor
      · intro hx hmem
        exact hx (Or.inr hmem)

/-- `list.remove` on a present element deletes exactly the first
occurrence: the list splits as `l₁ ++ x :: l₂` with `x ∉ l₁`, and the
result is `l₁ ++ l₂`. -/
theorem remove_first_spec {l : List Callback} {x : Callback} (hx : x ∈ l) :
    ∃ l₁ l₂, l = l₁ ++ x :: l₂ ∧ x ∉ l₁ ∧
      remove_first l x = some (l₁ ++ l₂) := by
  induction l with
  | nil => cases hx
  | cons a l ih =>
    by_cases h : a = x
    · subst h
      exact ⟨[], l, rfl, by simp, by simp [remove_first]⟩
    · have hx' : x ∈ l := by
        rcases List.mem_cons.1 hx with h1 | h1
        · exact absurd h1.symm h
        · exact h1
      rcases ih hx' with ⟨l₁, l₂, hdec, hnl, hrm⟩
      refine ⟨a :: l₁, l₂, by simp [hdec], ?_, by simp [remove_first, h, hrm]⟩
      intro hmem
      rcases List.mem_cons.1 hmem with he | hm
      · exact h he.symm
      · exact hnl hm

/-! Claim theorems. -/

/-- C1: the claim that `EventClient.event(name, payload)` invokes every
callback registered under `name` exactly once with that payload, in
registration order, fails on the code when several synchronous callbacks
are registered under one name: with two synchronous callbacks (ids 0 and
1), the two deferred `call_soon` lambdas both late-bind the loop
variable `cb`, which holds the last callback by the time they run, so
callback 1 is invoked twice and callback 0 is never invoked. -/
theorem C1_event_sync_callbacks_trace :
    eventInvocations [⟨0, false⟩, ⟨1, false⟩] (some (PyVal.pystr "payload")) =
      [(1, some (PyVal.pystr "payload")), (1, some (PyVal.pystr "payload"))] := by
  decide

/-- C2: when a `TooManyRequests` error with `details.timeToReset` (in
milliseconds) and a recover message `{rid, msg}` reaches
`OverrideClient.on_error`, the client suspends for `timeToReset`
milliseconds and then resends the original message (same room id and
text) exactly once; the error path's trace consists of exactly the
suspension followed by the single resend, so no result is delivered to
the original caller from this path. -/
theorem C2_too_many_requests_retry (er : ErrorResult) (rm : RecoverMessage) :
    on_error TOO_MANY_REQUESTS_value er rm =
      [ClientAction.sleep_ms er.error.details.timeToReset,
       ClientAction.send_msg rm.rid rm.msg] ∧
    countSendMsg (on_error TOO_MANY_REQUESTS_value er rm) = 1 := by
  constructor
  · simp [on_error, on_too_many_requests]
  · simp [on_error, on_too_many_requests, countSendMsg]

/-- C3: setting the `Client.stop` property to a truthy value sets the
internal `_stop` flag to `True` and enqueues the `None` sentinel; a
`handler_loop` blocked on the then-empty queue wakes on the sentinel at
the head of the queue, skips it as falsy without routing it, observes the
flag at the `while` check and terminates, routing no later message
either. -/
theorem C3_stop_setter_sentinel (s : ClientState) (value : PyVal)
    (extra : List PyVal) (hv : truthy value = true) :
    (stop_setter s value)._stop = true ∧
    (stop_setter s value)._queue = s._queue ++ [PyVal.pynone] ∧
    handler_loop_resume true (PyVal.pynone :: extra) = [] := by
  refine ⟨?_, ?_, ?_⟩
  · simp [stop_setter, hv]
  · simp [stop_setter, hv]
  · simp [handler_loop_resume, truthy, handler_loop_run_stop]

/-- C3 witness: a concrete stopped client — `stop = True` on a blocked
(empty-queue) client enqueues exactly the sentinel, and the resumed loop
routes neither it nor a later message. -/
theorem C3_stop_setter_sentinel_witness :
    (stop_setter ⟨false, []⟩ (PyVal.pybool true))._stop = true ∧
    (stop_setter ⟨false, []⟩ (PyVal.pybool true))._queue =
      [] ++ [PyVal.pynone] ∧
    handler_loop_resume true (PyVal.pynone :: [PyVal.pystr "later"]) = [] :=
  C3_stop_setter_sentinel ⟨false, []⟩ (PyVal.pybool true)
    [PyVal.pystr "later"] rfl

/-- C4: a fire pass of `EventClient.event` works on the registry snapshot
taken when the loop ran: adding or removing a listener afterwards leaves
the already-scheduled invocations of the in-progress pass unchanged, a
freshly added listener (id not in the snapshot) is never invoked by that
pass, and it is invoked by the next pass (it is appended, hence last, so
both its own slot and — if synchronous — the late-bound lambda resolve to
it). -/
theorem C4_fire_snapshot (st : EventClientState) (name : String)
    (data : Option PyVal) (cb' c : Callback)
    (hfresh : cb'.id ∉ (st.callbacks name).map Callback.id) :
    (add_cb (event st name data) name cb').pending =
      (event st name data).pending ∧
    ((del_cb (event st name data) name c).1).pending =
      (event st name data).pending ∧
    (cb'.id, data) ∉ eventInvocations (st.callbacks name) data ∧
    (cb'.id, data) ∈ eventInvocations ((add_cb st name cb').callbacks name)
      data := by
  refine ⟨rfl, ?_, ?_, ?_⟩
  · unfold del_cb
    rcases remove_first ((event st name data).callbacks name) c with _ | l <;> rfl
  · intro hmem
    exact hfresh (eventInvocations_id_mem (st.callbacks name) data hmem)
  · simpa [add_cb] using
      eventInvocations_concat_self (st.callbacks name) cb' data

/-- C4 witness: a concrete registry with one synchronous listener (id 1)
under `"added"`; the fresh listener id 5 is not invoked by the pass over
the snapshot and is invoked by the pass after its registration. -/
theorem C4_fire_snapshot_witness :
    (add_cb (event ⟨fun _ => [⟨1, false⟩], []⟩ "added" none) "added"
        ⟨5, false⟩).pending =
      (event ⟨fun _ => [⟨1, false⟩], []⟩ "added" none).pending ∧
    ((del_cb (event ⟨fun _ => [⟨1, false⟩], []⟩ "added" none) "added"
        ⟨1, false⟩).1).pending =
      (event ⟨fun _ => [⟨1, false⟩], []⟩ "added" none).pending ∧
    ((5 : Nat), (none : Option PyVal)) ∉
      eventInvocations ((fun _ => [⟨1, false⟩] : String → List Callback)
        "added") none ∧
    ((5 : Nat), (none : Option PyVal)) ∈
      eventInvocations
        ((add_cb ⟨fun _ => [⟨1, false⟩], []⟩ "added" ⟨5, false⟩).callbacks
          "added") none :=
  C4_fire_snapshot ⟨fun _ => [⟨1, false⟩], []⟩ "added" none ⟨5, false⟩
    ⟨1, false⟩ (by decide)

/-- C5: a `ServerError` whose kind is not `TooManyRequests` triggers no
automatic retry — `OverrideClient.on_error` performs no effect at all,
in particular no resend of the recover message — and the failure reaches
the original caller: resolving the error `Result` delivers the typed
failure to the pending call's waiter. -/
theorem C5_non_tmr_error_surfaced (t : String) (er : ErrorResult)
    (rm : RecoverMessage) (h : AsyncHolder) (msg : ResultMsg)
    (ht : t ≠ TOO_MANY_REQUESTS_value) (hid : msg.id ∈ h.pending)
    (herr : msg.error = some (t, er, rm)) :
    on_error t er rm = [] ∧
    (msg.id, CallOutcome.failure t er rm) ∈ (on_result h msg).1.delivered ∧
    countSendMsg (on_result h msg).2 = 0 := by
  have he : on_error t er rm = [] := by simp [on_error, ht]
  refine ⟨he, ?_, ?_⟩
  · simp [on_result, recv_result, hid, herr]
  · simp [on_result, recv_result, hid, herr, he, countSendMsg]

/-- C5 witness: an `unknown-method` error for pending call 7 is delivered
to its waiter as a failure and produces no resend. -/
theorem C5_non_tmr_error_surfaced_witness :
    on_error "unknown-method" ⟨⟨⟨0⟩⟩⟩ ⟨"r1", "hi"⟩ = [] ∧
    ((7 : Nat), CallOutcome.failure "unknown-method" ⟨⟨⟨0⟩⟩⟩ ⟨"r1", "hi"⟩) ∈
      (on_result ⟨[7], []⟩
        ⟨7, some ("unknown-method", ⟨⟨⟨0⟩⟩⟩, ⟨"r1", "hi"⟩), ""⟩).1.delivered ∧
    countSendMsg (on_result ⟨[7], []⟩
        ⟨7, some ("unknown-method", ⟨⟨⟨0⟩⟩⟩, ⟨"r1", "hi"⟩), ""⟩).2 = 0 :=
  C5_non_tmr_error_surfaced "unknown-method" ⟨⟨⟨0⟩⟩⟩ ⟨"r1", "hi"⟩ ⟨[7], []⟩
    ⟨7, some ("unknown-method", ⟨⟨⟨0⟩⟩⟩, ⟨"r1", "hi"⟩), ""⟩
    (by decide) (by decide) rfl

/-- C6: `EventClient.del_cb(name, cb)` never raises; its result `True`
exactly when `cb` is registered under `name`; listeners under every
other name are untouched; when `cb` is absent the `name` list is also
unchanged (and `False` is returned), and when `cb` is present exactly
the first matching occurrence is removed from the `name` list. -/
theorem C6_del_cb_spec (st : EventClientState) (name n : String)
    (cb : Callback) (hn : n ≠ name) :
    (del_cb st name cb).1.callbacks n = st.callbacks n ∧
    ((del_cb st name cb).2 = true ↔ cb ∈ st.callbacks name) ∧
    (if cb ∈ st.callbacks name then
       ∃ l₁ l₂, st.callbacks name = l₁ ++ cb :: l₂ ∧ cb ∉ l₁ ∧
         (del_cb st name cb).1.callbacks name = l₁ ++ l₂
     else (del_cb st name cb).1.callbacks name = st.callbacks name) := by
  by_cases hmem : cb ∈ st.callbacks name
  · rcases remove_first_spec hmem with ⟨l₁, l₂, hdec, hnl, hrm⟩
    refine ⟨?_, ?_, ?_⟩
    · simp [del_cb, hrm, hn]
    · simp [del_cb, hrm, hmem]
    · rw [if_pos hmem]
      exact ⟨l₁, l₂, hdec, hnl, by simp [del_cb, hrm]⟩
  · have hnone : remove_first (st.callbacks name) cb = none :=
      remove_first_eq_none.2 hmem
    refine ⟨?_, ?_, ?_⟩
    · simp [del_cb, hnone]
    · simp [del_cb, hnone, hmem]
    · rw [if_neg hmem]
      simp [del_cb, hnone]

/-- C6 witness: removing callback 0 from `"added"`, where it occurs at
positions 0 and 2, returns `True`, removes only the first occurrence,
and leaves the (empty) list under `"x"` unchanged. -/
theorem C6_del_cb_spec_witness :
    (del_cb ⟨fun nm => if nm = "added" then [⟨0, false⟩, ⟨1, false⟩, ⟨0, false⟩]
        else [], []⟩ "added" ⟨0, false⟩).1.callbacks "x" =
      (fun nm => if nm = "added" then [⟨0, false⟩, ⟨1, false⟩, ⟨0, false⟩]
        else ([] : List Callback)) "x" ∧
    ((del_cb ⟨fun nm => if nm = "added" then [⟨0, false⟩, ⟨1, false⟩, ⟨0, false⟩]
        else [], []⟩ "added" ⟨0, false⟩).2 = true ↔
      (⟨0, false⟩ : Callback) ∈
        (fun nm => if nm = "added" then [⟨0, false⟩, ⟨1, false⟩, ⟨0, false⟩]
          else ([] : List Callback)) "added") ∧
    (if (⟨0, false⟩ : Callback) ∈
        (fun nm => if nm = "added" then [⟨0, false⟩, ⟨1, false⟩, ⟨0, false⟩]
          else ([] : List Callback)) "added" then
       ∃ l₁ l₂,
         (fun nm => if nm = "added" then [⟨0, false⟩, ⟨1, false⟩, ⟨0, false⟩]
           else ([] : List Callback)) "added" = l₁ ++ ⟨0, false⟩ :: l₂ ∧
         (⟨0, false⟩ : Callback) ∉ l₁ ∧
         (del_cb ⟨fun nm => if nm = "added" then
             [⟨0, false⟩, ⟨1, false⟩, ⟨0, false⟩] else [], []⟩ "added"
           ⟨0, false⟩).1.callbacks "added" = l₁ ++ l₂
     else
       (del_cb ⟨fun nm => if nm = "added" then
           [⟨0, false⟩, ⟨1, false⟩, ⟨0, false⟩] else [], []⟩ "added"
         ⟨0, false⟩).1.callbacks "added" =
         (fun nm => if nm = "added" then [⟨0, false⟩, ⟨1, false⟩, ⟨0, false⟩]
           else ([] : List Callback)) "added") :=
  C6_del_cb_spec ⟨fun nm => if nm = "added" then
      [⟨0, false⟩, ⟨1, false⟩, ⟨0, false⟩] else [], []⟩ "added" "x"
    ⟨0, false⟩ (by decide)

/-- C7 counterexample: the claim that resolving the login call sets
`ClientData.session` from the login result is false on the code — at a
concrete fresh client and login result, `ClientAPI.login`'s data update
sets `token` and `user_id` but leaves `session` at its prior sentinel
value `""`, which matches no field of the result. -/
theorem C7_session_not_captured :
    (login_update (ClientData.init "srv" "alice" "pw")
        ⟨"tok", some 7, "uid"⟩).session = "" ∧
    (login_update (ClientData.init "srv" "alice" "pw")
        ⟨"tok", some 7, "uid"⟩).token = "tok" ∧
    (login_update (ClientData.init "srv" "alice" "pw")
        ⟨"tok", some 7, "uid"⟩).user_id = "uid" ∧
    ("" : String) ≠ "tok" ∧ ("" : String) ≠ "uid" := by
  refine ⟨rfl, rfl, rfl, by decide, by decide⟩

/-- C7 (amended): when the login call's Result message is resolved, the
client captures the returned token, token expiry, and user-id into its
client data (`ClientData.token`, `ClientData.token_expires`,
`ClientData.user_id` set from the login result), while the server,
username, password — and `ClientData.session`, which login never touches
(the session id is captured from the `Connected` message onto the
`Client` object instead) — stay unchanged. -/
theorem C7_login_captures_fields (d : ClientData) (r : LoginResult) :
    (login_update d r).token = r.token ∧
    (login_update d r).token_expires = r.expires ∧
    (login_update d r).user_id = r.user_id ∧
    (login_update d r).session = d.session ∧
    (login_update d r).server = d.server ∧
    (login_update d r).username = d.username ∧
    (login_update d r).password = d.password :=
  ⟨rfl, rfl, rfl, rfl, rfl, rfl, rfl⟩

/-- C8: routing a message whose classified kind is none of the
recognized push-event kinds is a no-op that never raises: for a
non-falsy message whose `RawMessageType` is none of `ADDED`, `CHANGED`,
`UPDATED`, `REMOVED`, `FAILED`, `EventClient.parse` fires no event and
changes no client state (the state, registry and scheduled invocations
included, is returned unchanged). -/
theorem C8_parse_unknown_noop (st : EventClientState) (msg : PyVal)
    (t : RawMessageType) (hm : truthy msg = true)
    (h1 : t ≠ RawMessageType.ADDED) (h2 : t ≠ RawMessageType.CHANGED)
    (h3 : t ≠ RawMessageType.UPDATED) (h4 : t ≠ RawMessageType.REMOVED)
    (h5 : t ≠ RawMessageType.FAILED) :
    event_client_parse st msg t = st := by
  cases t <;> first | rfl | simp_all

/-- C8 witness: an `UNKNOWN`-classified non-falsy message leaves a
concrete `EventClient` state unchanged. -/
theorem C8_parse_unknown_noop_witness :
    event_client_parse ⟨fun _ => [⟨1, false⟩], []⟩ (PyVal.pystr "junk")
      RawMessageType.UNKNOWN = ⟨fun _ => [⟨1, false⟩], []⟩ :=
  C8_parse_unknown_noop ⟨fun _ => [⟨1, false⟩], []⟩ (PyVal.pystr "junk")
    RawMessageType.UNKNOWN (by decide) (by decide) (by decide) (by decide)
    (by decide) (by decide)

/-- C9: a falsy message dequeued by `Client.handler_loop` (`None`, an
empty dict, an empty string) is skipped without being classified or
routed — the loop resumed on it proceeds exactly as on the rest of the
queue — and no falsy value (in particular not the `None` sentinel) is
ever among the messages handed to the classifier. -/
theorem C9_falsy_skipped (stop : Bool) (m : PyVal) (rest : List PyVal)
    (hm : truthy m = false) :
    handler_loop_resume stop (m :: rest) = handler_loop_run stop rest ∧
    handler_loop_run false (m :: rest) = handler_loop_run false rest ∧
    PyVal.pynone ∉ handler_loop_run stop rest ∧
    PyVal.pynone ∉ handler_loop_resume stop (m :: rest) := by
  have h1 : handler_loop_resume stop (m :: rest) = handler_loop_run stop rest := by
    simp [handler_loop_resume, hm]
  have h3 : PyVal.pynone ∉ handler_loop_run stop rest := by
    intro hmem
    have := handler_loop_run_truthy stop rest _ hmem
    simp [truthy] at this
  refine ⟨h1, ?_, h3, ?_⟩
  · simp [handler_loop_run, hm]
  · rw [h1]
    exact h3

/-- C9 witness: an empty dict at the head of the queue is skipped and the
loop proceeds to the remaining message; `None` never reaches the
classifier. -/
theorem C9_falsy_skipped_witness :
    handler_loop_resume false (PyVal.pydict [] :: [PyVal.pystr "msg"]) =
      handler_loop_run false [PyVal.pystr "msg"] ∧
    handler_loop_run false (PyVal.pydict [] :: [PyVal.pystr "msg"]) =
      handler_loop_run false [PyVal.pystr "msg"] ∧
    PyVal.pynone ∉ handler_loop_run false [PyVal.pystr "msg"] ∧
    PyVal.pynone ∉
      handler_loop_resume false (PyVal.pydict [] :: [PyVal.pystr "msg"]) :=
  C9_falsy_skipped false (PyVal.pydict []) [PyVal.pystr "msg"] rfl

/-- C10: the stop flag is monotone under the `Client.stop` property:
assigning a falsy value leaves the state (flag and queue) entirely
unchanged, and for any assigned value the resulting flag is
`old flag OR truthiness of the value` — so once `_stop` is `True`, no
assignment through the property can make it `False` again. -/
theorem C10_stop_monotone (s : ClientState) (v w : PyVal)
    (hv : truthy v = false) :
    stop_setter s v = s ∧
    (stop_setter s w)._stop = (s._stop || truthy w) := by
  constructor
  · simp [stop_setter, hv]
  · by_cases hw : truthy w <;> simp [stop_setter, hw]

/-- C10 witness: on an already-stopped client, assigning the falsy `None`
changes nothing, and assigning `True` keeps the flag `True`. -/
theorem C10_stop_monotone_witness :
    stop_setter ⟨true, []⟩ PyVal.pynone = ⟨true, []⟩ ∧
    (stop_setter ⟨true, []⟩ (PyVal.pybool true))._stop =
      ((⟨true, []⟩ : ClientState)._stop || truthy (PyVal.pybool true)) :=
  C10_stop_monotone ⟨true, []⟩ PyVal.pynone (PyVal.pybool true) rfl

end Unha2
